import Mathlib

/-!
Verification of the Harmony backend authentication and profile core
(`src/Backend/app`).  The services are embedded shallowly: timestamps are
integer seconds, the bcrypt password check and the `uuid.UUID` parser are
external library calls and are passed in as function parameters, and the
database session is replaced by explicit user/profile values threaded through
the functions.
-/

namespace Harmony

/-- Roles from `app/models/user_models.py`, enum `UserRole`. -/
inductive UserRole where
  | user
  | clinician
  | admin
deriving DecidableEq, Repr

/-- Error taxonomy.  Modelled from the spec: `app/core/exceptions.py` is not in
the source tree; the spec section 7 taxonomy together with the exception class
names the services raise (`UnauthorizedError`, `PermissionError`,
`NotFoundError`, `ConflictError`, `ValidationError`, `ServiceError`) fixes the
distinct kinds. -/
inductive ErrKind where
  | unauthorized
  | permissionDenied
  | notFound
  | conflict
  | validationFailed
  | serviceError
deriving DecidableEq, Repr

/-- The `users` row fields the auth core reads and writes
(`app/models/user_models.py`, class `User`).  `status` holds the stored string
value of the `Status` enum, whose members are
`active`, `banned`, `suspended`, `deactivated`. -/
structure User where
  id : Nat
  email : String
  password_hash : String
  role : UserRole
  status : String
  failed_login_attempts : Nat
  lockout_until : Option Int
  password_changed_at : Option Int
  last_login_at : Option Int
deriving DecidableEq, Repr

/-- Embedding of `auth_crud.increment_failed_attempts`. -/
def increment_failed_attempts (u : User) : User :=
  { u with failed_login_attempts := u.failed_login_attempts + 1 }

/-- Embedding of `auth_crud.reset_failed_attempts`. -/
def reset_failed_attempts (u : User) : User :=
  { u with failed_login_attempts := 0 }

/-- Embedding of `auth_crud.set_lockout_until`. -/
def set_lockout_until (u : User) (t : Int) : User :=
  { u with lockout_until := some t }

/-- Embedding of `auth_crud.clear_lockout`. -/
def clear_lockout (u : User) : User :=
  { u with lockout_until := none }

/-- Embedding of `auth_crud.update_last_login`. -/
def update_last_login (u : User) (now : Int) : User :=
  { u with last_login_at := some now }

/-- Embedding of `auth_crud.update_password_changed_at`. -/
def update_password_changed_at (u : User) (now : Int) : User :=
  { u with password_changed_at := some now }

/-- The claim set of a JWT as produced or decoded by `jose.jwt`; exactly the
claims `AuthService` reads.  `typ` models the `"type"` claim carried by
refresh tokens. -/
structure TokenPayload where
  sub : Option String
  email : Option String
  iat : Option Int
  exp : Option Int
  typ : Option String
deriving DecidableEq, Repr

/-- Embedding of `AuthService.create_access_token` with the default expiry
`ACCESS_TOKEN_EXPIRE_MINUTES = 60` from `app/core/config.py`.  Access tokens
carry no `"type"` claim. -/
def create_access_token (sub : String) (email : String) (now : Int) : TokenPayload :=
  { sub := some sub, email := some email, iat := some now,
    exp := some (now + 60 * 60), typ := none }

/-- Embedding of `AuthService.create_refresh_token` with its hard-coded default
expiry `timedelta(days=7)`. -/
def create_refresh_token (sub : String) (email : String) (now : Int) : TokenPayload :=
  { sub := some sub, email := some email, iat := some now,
    exp := some (now + 7 * 24 * 60 * 60), typ := some "refresh" }

/-- The lockout test in `AuthService.login`:
`user.lockout_until and user.lockout_until > now` (a `datetime` is always
truthy when present). -/
def lockout_active (u : User) (now : Int) : Bool :=
  match u.lockout_until with
  | some t => now < t
  | none => false

/-- Outcome of `AuthService.login`.  `stored` is the user row as the attempt
leaves it in the database (`none` when no account matched the email). -/
inductive LoginResult where
  | failure (kind : ErrKind) (msg : String) (stored : Option User)
  | success (stored : User) (access : TokenPayload) (refresh : TokenPayload)
deriving DecidableEq, Repr

/-- Embedding of `AuthService.login` (`app/services/auth_service.py`).
`verify` stands for `pwd_context.verify`, `userOpt` is the result of
`get_user_by_email`, and `now` is the single `datetime.now(timezone.utc)`
the method takes.  The lockout threshold 5 and duration 15 minutes are the
literals in the source. -/
def login (verify : String → String → Bool) (now : Int)
    (userOpt : Option User) (password : String) : LoginResult :=
  match userOpt with
  | none => .failure .unauthorized "Invalid email or password" none
  | some user =>
    if lockout_active user now then
      .failure .unauthorized "Account is locked. Try again later." (some user)
    else if verify password user.password_hash = false then
      let u1 := increment_failed_attempts user
      let u2 :=
        if 5 ≤ u1.failed_login_attempts then set_lockout_until u1 (now + 15 * 60)
        else u1
      .failure .unauthorized "Invalid email or password" (some u2)
    else
      let u1 := update_last_login (reset_failed_attempts user) now
      .success u1 (create_access_token (toString u1.id) u1.email now)
        (create_refresh_token (toString u1.id) u1.email now)

/-- A sample account used by concrete witnesses. -/
def lockedSample : User :=
  { id := 1, email := "a@x.com", password_hash := "pw", role := .user,
    status := "active", failed_login_attempts := 2, lockout_until := some 200,
    password_changed_at := none, last_login_at := none }

/-- Claim C3: while the lockout expiry is strictly in the future, login is
rejected with an Unauthorized (locked) outcome whose stored row is the
unchanged account — in particular the failed-attempt counter is untouched —
and the result does not depend on the supplied password or on the password
verifier, so no password verification takes place. -/
theorem login_locked_rejected_without_verification
    (verify : String → String → Bool) (now t : Int) (u : User) (password : String)
    (hlock : u.lockout_until = some t) (hfut : now < t) :
    login verify now (some u) password =
      .failure .unauthorized "Account is locked. Try again later." (some u) := by
  simp [login, lockout_active, hlock, hfut]

theorem login_locked_rejected_without_verification_witness :
    login (fun p h => p == h) 100 (some lockedSample) "pw" =
      .failure .unauthorized "Account is locked. Try again later." (some lockedSample) :=
  login_locked_rejected_without_verification (fun p h => p == h) 100 200 lockedSample "pw"
    (by decide) (by decide)

/-- A sample account with four failed attempts already on record; the next
failure reaches the threshold. -/
def fourStrikesSample : User :=
  { id := 2, email := "b@x.com", password_hash := "good-pw", role := .user,
    status := "active", failed_login_attempts := 4, lockout_until := none,
    password_changed_at := none, last_login_at := none }

/-- A sample account sitting at the threshold with an already-expired
lockout window. -/
def expiredLockSample : User :=
  { id := 3, email := "c@x.com", password_hash := "good-pw", role := .user,
    status := "active", failed_login_attempts := 5, lockout_until := some 900,
    password_changed_at := none, last_login_at := none }

/-- Claim C4: on a failed password check against an existing, not currently
locked account, the failed-attempt counter grows by exactly one and reaching
the threshold 5 installs a lockout expiring 15 minutes after `now`; a
successful login on a not currently locked account resets the counter to 0. -/
theorem login_failed_attempt_policy :
    (∀ (verify : String → String → Bool) (now : Int) (u : User) (password : String),
      lockout_active u now = false →
      verify password u.password_hash = false →
      ∃ u2, login verify now (some u) password =
          .failure .unauthorized "Invalid email or password" (some u2) ∧
        u2.failed_login_attempts = u.failed_login_attempts + 1 ∧
        (u.failed_login_attempts + 1 = 5 → u2.lockout_until = some (now + 15 * 60))) ∧
    (∀ (verify : String → String → Bool) (now : Int) (u : User) (password : String),
      lockout_active u now = false →
      verify password u.password_hash = true →
      ∃ u2 a r, login verify now (some u) password = .success u2 a r ∧
        u2.failed_login_attempts = 0) := by
  constructor
  · intro verify now u password hnl hbad
    by_cases h5 : 5 ≤ u.failed_login_attempts + 1
    · refine ⟨set_lockout_until (increment_failed_attempts u) (now + 15 * 60), ?_, ?_, ?_⟩
      · simp [login, hnl, hbad, increment_failed_attempts, h5]
      · simp [set_lockout_until, increment_failed_attempts]
      · intro _; simp [set_lockout_until]
    · refine ⟨increment_failed_attempts u, ?_, ?_, ?_⟩
      · simp [login, hnl, hbad, increment_failed_attempts, h5]
      · simp [increment_failed_attempts]
      · intro hc; omega
  · intro verify now u password hnl hok
    refine ⟨update_last_login (reset_failed_attempts u) now,
      create_access_token (toString (update_last_login (reset_failed_attempts u) now).id)
        (update_last_login (reset_failed_attempts u) now).email now,
      create_refresh_token (toString (update_last_login (reset_failed_attempts u) now).id)
        (update_last_login (reset_failed_attempts u) now).email now,
      by simp [login, hnl, hok], by simp [update_last_login, reset_failed_attempts]⟩

theorem login_failed_attempt_policy_witness :
    (∃ u2, login (fun p h => p == h) 1000 (some fourStrikesSample) "wrong-pw" =
        .failure .unauthorized "Invalid email or password" (some u2) ∧
      u2.failed_login_attempts = fourStrikesSample.failed_login_attempts + 1 ∧
      (fourStrikesSample.failed_login_attempts + 1 = 5 →
        u2.lockout_until = some (1000 + 15 * 60))) ∧
    (∃ u2 a r, login (fun p h => p == h) 1000 (some fourStrikesSample) "good-pw" =
        .success u2 a r ∧ u2.failed_login_attempts = 0) :=
  ⟨login_failed_attempt_policy.1 (fun p h => p == h) 1000 fourStrikesSample "wrong-pw"
      (by decide) (by decide),
   login_failed_attempt_policy.2 (fun p h => p == h) 1000 fourStrikesSample "good-pw"
      (by decide) (by decide)⟩

/-- Claim C10: the counter survives the lockout window.  First: on an account
whose counter has reached the threshold and whose lockout expiry has passed, a
failed password attempt pushes the counter past the threshold and installs a
fresh lockout 15 minutes after `now`.  Second: a failed login outcome never
zeroes a non-zero counter, so within the login flow only the success branch
resets it to 0. -/
theorem counter_reset_only_by_successful_login :
    (∀ (verify : String → String → Bool) (now t : Int) (u : User) (password : String),
      u.lockout_until = some t → t ≤ now →
      5 ≤ u.failed_login_attempts →
      verify password u.password_hash = false →
      ∃ u2, login verify now (some u) password =
          .failure .unauthorized "Invalid email or password" (some u2) ∧
        u2.failed_login_attempts = u.failed_login_attempts + 1 ∧
        u2.lockout_until = some (now + 15 * 60)) ∧
    (∀ (verify : String → String → Bool) (now : Int) (u u2 : User)
        (password msg : String) (e : ErrKind),
      login verify now (some u) password = .failure e msg (some u2) →
      u2.failed_login_attempts = 0 → u.failed_login_attempts = 0) := by
  constructor
  · intro verify now t u password hlock hpast h5 hbad
    have hnl : lockout_active u now = false := by
      simp [lockout_active, hlock]; omega
    refine ⟨set_lockout_until (increment_failed_attempts u) (now + 15 * 60), ?_, ?_, ?_⟩
    · have h5' : 5 ≤ u.failed_login_attempts + 1 := by omega
      simp [login, hnl, hbad, increment_failed_attempts, h5']
    · simp [set_lockout_until, increment_failed_attempts]
    · simp [set_lockout_until]
  · intro verify now u u2 password msg e hrun h0
    by_cases hnl : lockout_active u now
    · simp [login, hnl] at hrun
      obtain ⟨-, -, hu⟩ := hrun
      rw [hu]; exact h0
    · by_cases hv : verify password u.password_hash
      · simp [login, hnl, hv] at hrun
      · simp [login, hnl, hv, increment_failed_attempts] at hrun
        obtain ⟨-, -, hu⟩ := hrun
        split at hu <;> rw [← hu] at h0 <;>
          simp [set_lockout_until] at h0

/-- A locked sample account whose counter is zero. -/
def zeroLockedSample : User :=
  { lockedSample with failed_login_attempts := 0 }

theorem counter_reset_only_by_successful_login_witness :
    (∃ u2, login (fun p h => p == h) 1000 (some expiredLockSample) "wrong-pw" =
        .failure .unauthorized "Invalid email or password" (some u2) ∧
      u2.failed_login_attempts = expiredLockSample.failed_login_attempts + 1 ∧
      u2.lockout_until = some (1000 + 15 * 60)) ∧
    zeroLockedSample.failed_login_attempts = 0 :=
  ⟨counter_reset_only_by_successful_login.1 (fun p h => p == h) 1000 900 expiredLockSample
      "wrong-pw" (by decide) (by decide) (by decide) (by decide),
   counter_reset_only_by_successful_login.2 (fun p h => p == h) 100 zeroLockedSample
      zeroLockedSample "pw" "Account is locked. Try again later." .unauthorized
      (by decide) (by decide)⟩

/-- A suspended account, correct password on record, not locked. -/
def suspendedSample : User :=
  { id := 7, email := "s@x.com", password_hash := "correct-pw", role := .user,
    status := "suspended", failed_login_attempts := 0, lockout_until := none,
    password_changed_at := none, last_login_at := none }

/-- Claim C2 fails on the code: `AuthService.login` never reads
`user.status`, so a suspended account presenting its correct password
completes login and receives tokens. -/
theorem login_ignores_account_status :
    suspendedSample.status = "suspended" ∧
    login (fun p h => p == h) 1000 (some suspendedSample) "correct-pw" =
      .success { suspendedSample with failed_login_attempts := 0, last_login_at := some 1000 }
        (create_access_token "7" "s@x.com" 1000)
        (create_refresh_token "7" "s@x.com" 1000) := by
  constructor
  · rfl
  · decide

/-- Outcome of `jose.jwt.decode`: the library itself checks the signature and
the `exp` claim, raising `ExpiredSignatureError` or a `JWTError`.  `ok` means
the signature was valid and the token unexpired. -/
inductive DecodeResult where
  | ok (payload : TokenPayload)
  | expiredSignature
  | invalid
deriving DecidableEq, Repr

/-- Python truthiness of the optional `sub` string claim
(`user_id = payload.get("sub"); if not user_id`): `None` and `""` are falsy. -/
def truthyStr : Option String → Bool
  | none => false
  | some s => !(s == "")

/-- Python truthiness of the optional numeric `iat` claim
(`token_iat = payload.get("iat"); if not token_iat`): `None` and `0` are
falsy. -/
def truthyInt : Option Int → Bool
  | none => false
  | some n => !(n == 0)

/-- Embedding of `AuthService.validate_token_issue_time`.  The timezone
normalisation of a naive stored datetime disappears in the integer model. -/
def validate_token_issue_time (user : User) (token_issue_time : Int) : Bool :=
  match user.password_changed_at with
  | some password_changed_at =>
    if token_issue_time < password_changed_at then false else true
  | none => true

/-- Outcome of `AuthService.refresh_token`. -/
inductive RefreshResult where
  | error (kind : ErrKind) (msg : String)
  | ok (access : TokenPayload)
deriving DecidableEq, Repr

/-- Embedding of `AuthService.refresh_token`.  `decoded` is the outcome of
`jwt.decode(refresh_token, REFRESH_SECRET_KEY, ...)`; `parseUUID` stands for
`uuid.UUID` (`none` models the `ValueError` it raises on an unparsable
string); `get_user` is `get_user_by_id`. -/
def refresh_token (now : Int) (decoded : DecodeResult)
    (parseUUID : String → Option Nat) (get_user : Nat → Option User) : RefreshResult :=
  match decoded with
  | .expiredSignature => .error .unauthorized "Refresh token has expired"
  | .invalid => .error .unauthorized "Invalid refresh token 2"
  | .ok payload =>
    if payload.typ ≠ some "refresh" then
      .error .unauthorized "Invalid refresh token"
    else if truthyStr payload.sub = false then
      .error .unauthorized "Invalid refresh token"
    else
      match parseUUID (payload.sub.getD "") with
      | none => .error .validationFailed "Invalid user ID in token"
      | some user_id =>
        match get_user user_id with
        | none => .error .notFound "User not found"
        | some user =>
          if truthyInt payload.iat = false then
            .error .unauthorized "Token revoked due to password change"
          else if validate_token_issue_time user (payload.iat.getD 0) = false then
            .error .unauthorized "Token revoked due to password change"
          else
            .ok (create_access_token (toString user.id) user.email now)

/-- Outcome of `AuthService.verify_token`.  `uncaught` records a Python
exception raised inside the `try` block that no `except` clause of the method
matches, so it escapes the method. -/
inductive VerifyResult where
  | error (kind : ErrKind) (msg : String)
  | uncaught (exn : String)
  | ok (payload : TokenPayload)
deriving DecidableEq, Repr

/-- Embedding of `AuthService.verify_token`.  `UUID(user_id_str)` raises
`TypeError` on a `None` sub and `ValueError` on an unparsable string; the
method only catches `ExpiredSignatureError`, `JWTError` and `PyJWTError`, so
both escape. -/
def verify_token (decoded : DecodeResult) (parseUUID : String → Option Nat)
    (get_user : Nat → Option User) : VerifyResult :=
  match decoded with
  | .expiredSignature => .error .unauthorized "Token has expired"
  | .invalid => .error .unauthorized "Invalid token"
  | .ok payload =>
    match payload.sub with
    | none => .uncaught "TypeError"
    | some s =>
      match parseUUID s with
      | none => .uncaught "ValueError"
      | some user_id =>
        match get_user user_id with
        | none => .error .unauthorized "Invalid authentication token"
        | some _ => .ok payload

/-- Claim C1: a structurally valid, unexpired refresh token is rejected as
unauthorized when its issued-at claim predates the account's password change;
and when the token has no issued-at claim at all and a password-changed-at
timestamp exists, it is likewise rejected as revoked. -/
theorem refresh_rejects_stale_tokens :
    (∀ (now : Int) (payload : TokenPayload) (parseUUID : String → Option Nat)
        (get_user : Nat → Option User) (uid : Nat) (user : User) (iat pca : Int),
      payload.typ = some "refresh" →
      truthyStr payload.sub = true →
      parseUUID (payload.sub.getD "") = some uid →
      get_user uid = some user →
      payload.iat = some iat →
      user.password_changed_at = some pca →
      iat < pca →
      refresh_token now (.ok payload) parseUUID get_user =
        .error .unauthorized "Token revoked due to password change") ∧
    (∀ (now : Int) (payload : TokenPayload) (parseUUID : String → Option Nat)
        (get_user : Nat → Option User) (uid : Nat) (user : User) (pca : Int),
      payload.typ = some "refresh" →
      truthyStr payload.sub = true →
      parseUUID (payload.sub.getD "") = some uid →
      get_user uid = some user →
      payload.iat = none →
      user.password_changed_at = some pca →
      refresh_token now (.ok payload) parseUUID get_user =
        .error .unauthorized "Token revoked due to password change") := by
  constructor
  · intro now payload parseUUID get_user uid user iat pca htyp hsub hparse hget hiat hpca hlt
    by_cases hz : iat = 0
    · simp [refresh_token, htyp, hsub, hparse, hget, hiat, truthyInt, hz]
    · simp [refresh_token, htyp, hsub, hparse, hget, hiat, truthyInt, hz,
        validate_token_issue_time, hpca, hlt]
  · intro now payload parseUUID get_user uid user pca htyp hsub hparse hget hiat hpca
    simp [refresh_token, htyp, hsub, hparse, hget, hiat, truthyInt]

/-- The account behind the stale-token witnesses: password changed at time
500. -/
def pcaSample : User :=
  { id := 4, email := "d@x.com", password_hash := "pw", role := .user,
    status := "active", failed_login_attempts := 0, lockout_until := none,
    password_changed_at := some 500, last_login_at := none }

/-- A refresh-token payload issued at time 100, before `pcaSample`'s password
change at 500, expiring far in the future. -/
def staleRefreshPayload : TokenPayload :=
  { sub := some "4", email := some "d@x.com", iat := some 100,
    exp := some 999999, typ := some "refresh" }

/-- The same payload with the issued-at claim absent. -/
def noIatRefreshPayload : TokenPayload :=
  { staleRefreshPayload with iat := none }

/-- UUID parser used by concrete token witnesses: behaves as `uuid.UUID` does
on the strings these witnesses present. -/
def sampleParseUUID (s : String) : Option Nat :=
  if s == "4" then some 4 else none

/-- User lookup used by concrete token witnesses. -/
def sampleGetUser (n : Nat) : Option User :=
  if n == 4 then some pcaSample else none

theorem refresh_rejects_stale_tokens_witness :
    refresh_token 1000 (.ok staleRefreshPayload) sampleParseUUID sampleGetUser =
      .error .unauthorized "Token revoked due to password change" ∧
    refresh_token 1000 (.ok noIatRefreshPayload) sampleParseUUID sampleGetUser =
      .error .unauthorized "Token revoked due to password change" :=
  ⟨refresh_rejects_stale_tokens.1 1000 staleRefreshPayload sampleParseUUID sampleGetUser
      4 pcaSample 100 500 (by decide) (by decide) (by decide) (by decide) (by decide)
      (by decide) (by decide),
   refresh_rejects_stale_tokens.2 1000 noIatRefreshPayload sampleParseUUID sampleGetUser
      4 pcaSample 500 (by decide) (by decide) (by decide) (by decide) (by decide)
      (by decide)⟩

/-- A validly signed, unexpired, decodable refresh payload whose subject claim
is not a parseable UUID. -/
def badSubRefreshPayload : TokenPayload :=
  { sub := some "not-a-uuid", email := some "d@x.com", iat := some 100,
    exp := some 999999, typ := some "refresh" }

/-- Claim C9 fails on the code: presenting a well-signed refresh token whose
`sub` claim is the string `"not-a-uuid"` makes `AuthService.refresh_token`
raise `ValidationError`, not the single Unauthorized kind.
(`sampleParseUUID "not-a-uuid" = none`, exactly as `uuid.UUID` rejects that
string.) -/
theorem refresh_malformed_sub_not_unauthorized :
    refresh_token 1000 (.ok badSubRefreshPayload) sampleParseUUID sampleGetUser =
      .error .validationFailed "Invalid user ID in token" ∧
    ErrKind.validationFailed ≠ ErrKind.unauthorized := by
  decide

/-- Claim C9 amended: every failure detected by `jwt.decode` itself (bad
signature, malformed token, expiry) maps to Unauthorized on both paths, as do
a wrong type discriminator or a missing/empty subject on the refresh path; but
a decodable payload whose subject is not a parseable UUID yields
ValidationFailed on the refresh path, and on the access-verification path an
uncaught `ValueError` (or `TypeError` for an absent subject) escapes
`verify_token` instead of any Unauthorized outcome. -/
theorem token_failure_error_kinds :
    (∀ (now : Int) (p : String → Option Nat) (g : Nat → Option User),
      refresh_token now .expiredSignature p g =
        .error .unauthorized "Refresh token has expired") ∧
    (∀ (now : Int) (p : String → Option Nat) (g : Nat → Option User),
      refresh_token now .invalid p g = .error .unauthorized "Invalid refresh token 2") ∧
    (∀ (now : Int) (payload : TokenPayload) (p : String → Option Nat)
        (g : Nat → Option User),
      payload.typ ≠ some "refresh" →
      refresh_token now (.ok payload) p g = .error .unauthorized "Invalid refresh token") ∧
    (∀ (now : Int) (payload : TokenPayload) (p : String → Option Nat)
        (g : Nat → Option User),
      payload.typ = some "refresh" →
      (payload.sub = none ∨ payload.sub = some "") →
      refresh_token now (.ok payload) p g = .error .unauthorized "Invalid refresh token") ∧
    (∀ (now : Int) (payload : TokenPayload) (p : String → Option Nat)
        (g : Nat → Option User) (s : String),
      payload.typ = some "refresh" → payload.sub = some s → s ≠ "" → p s = none →
      refresh_token now (.ok payload) p g =
        .error .validationFailed "Invalid user ID in token") ∧
    (∀ (p : String → Option Nat) (g : Nat → Option User),
      verify_token .expiredSignature p g = .error .unauthorized "Token has expired") ∧
    (∀ (p : String → Option Nat) (g : Nat → Option User),
      verify_token .invalid p g = .error .unauthorized "Invalid token") ∧
    (∀ (payload : TokenPayload) (p : String → Option Nat) (g : Nat → Option User),
      payload.sub = none → verify_token (.ok payload) p g = .uncaught "TypeError") ∧
    (∀ (payload : TokenPayload) (p : String → Option Nat) (g : Nat → Option User)
        (s : String),
      payload.sub = some s → p s = none → verify_token (.ok payload) p g =
        .uncaught "ValueError") := by
  refine ⟨fun _ _ _ => rfl, fun _ _ _ => rfl, ?_, ?_, ?_, fun _ _ => rfl, fun _ _ => rfl,
    ?_, ?_⟩
  · intro now payload p g htyp
    simp [refresh_token, htyp]
  · intro now payload p g htyp hsub
    rcases hsub with h | h <;> simp [refresh_token, htyp, truthyStr, h]
  · intro now payload p g s htyp hsub hs hp
    simp [refresh_token, htyp, hsub, truthyStr, hs, hp]
  · intro payload p g hsub
    simp [verify_token, hsub]
  · intro payload p g s hsub hp
    simp [verify_token, hsub, hp]

/-- An access-token payload with an unparsable subject, used by the C9
witness. -/
def badSubAccessPayload : TokenPayload :=
  { sub := some "not-a-uuid", email := some "d@x.com", iat := some 100,
    exp := some 999999, typ := none }

/-- An access-token payload with no subject claim at all. -/
def noSubAccessPayload : TokenPayload :=
  { sub := none, email := some "d@x.com", iat := some 100,
    exp := some 999999, typ := none }

/-- A refresh payload carrying no subject claim. -/
def noSubRefreshPayload : TokenPayload :=
  { sub := none, email := some "d@x.com", iat := some 100,
    exp := some 999999, typ := some "refresh" }

/-- A refresh payload whose subject claim is the empty string. -/
def emptySubRefreshPayload : TokenPayload :=
  { sub := some "", email := some "d@x.com", iat := some 100,
    exp := some 999999, typ := some "refresh" }

theorem token_failure_error_kinds_witness :
    refresh_token 1000 .expiredSignature sampleParseUUID sampleGetUser =
      .error .unauthorized "Refresh token has expired" ∧
    refresh_token 1000 .invalid sampleParseUUID sampleGetUser =
      .error .unauthorized "Invalid refresh token 2" ∧
    refresh_token 1000 (.ok badSubAccessPayload) sampleParseUUID sampleGetUser =
      .error .unauthorized "Invalid refresh token" ∧
    refresh_token 1000 (.ok noSubRefreshPayload) sampleParseUUID sampleGetUser =
      .error .unauthorized "Invalid refresh token" ∧
    refresh_token 1000 (.ok emptySubRefreshPayload) sampleParseUUID sampleGetUser =
      .error .unauthorized "Invalid refresh token" ∧
    refresh_token 1000 (.ok badSubRefreshPayload) sampleParseUUID sampleGetUser =
      .error .validationFailed "Invalid user ID in token" ∧
    verify_token .expiredSignature sampleParseUUID sampleGetUser =
      .error .unauthorized "Token has expired" ∧
    verify_token .invalid sampleParseUUID sampleGetUser =
      .error .unauthorized "Invalid token" ∧
    verify_token (.ok noSubAccessPayload) sampleParseUUID sampleGetUser =
      .uncaught "TypeError" ∧
    verify_token (.ok badSubAccessPayload) sampleParseUUID sampleGetUser =
      .uncaught "ValueError" :=
  ⟨token_failure_error_kinds.1 1000 sampleParseUUID sampleGetUser,
   token_failure_error_kinds.2.1 1000 sampleParseUUID sampleGetUser,
   token_failure_error_kinds.2.2.1 1000 badSubAccessPayload sampleParseUUID sampleGetUser
     (by decide),
   token_failure_error_kinds.2.2.2.1 1000 noSubRefreshPayload sampleParseUUID
     sampleGetUser (by decide) (Or.inl (by decide)),
   token_failure_error_kinds.2.2.2.1 1000 emptySubRefreshPayload sampleParseUUID
     sampleGetUser (by decide) (Or.inr (by decide)),
   token_failure_error_kinds.2.2.2.2.1 1000 badSubRefreshPayload sampleParseUUID
     sampleGetUser "not-a-uuid" (by decide) (by decide) (by decide) (by decide),
   token_failure_error_kinds.2.2.2.2.2.1 sampleParseUUID sampleGetUser,
   token_failure_error_kinds.2.2.2.2.2.2.1 sampleParseUUID sampleGetUser,
   token_failure_error_kinds.2.2.2.2.2.2.2.1 noSubAccessPayload sampleParseUUID
     sampleGetUser (by decide),
   token_failure_error_kinds.2.2.2.2.2.2.2.2 badSubAccessPayload sampleParseUUID
     sampleGetUser "not-a-uuid" (by decide) (by decide)⟩

/-- What a route handler hands back: either a 200 `MessageResponse` body with
its `success` flag, or a raised service exception of some kind. -/
inductive RouteResult where
  | message (success : Bool) (msg : String)
  | error (kind : ErrKind) (msg : String)
deriving DecidableEq, Repr

/-- Whether a route outcome is a raised `ValidationError`. -/
def RouteResult.is_validation_error : RouteResult → Bool
  | .error .validationFailed _ => true
  | _ => false

/-- Embedding of the `/me/change-password` handler
(`app/api/user_routes.py`, `change_password`) composed with
`AuthService.change_password`.  `current_user` is the authenticated account
(the service looks it up again by its own id, which yields the same row);
`verify` is `AuthService.verify_password` and `hashFn` is
`AuthService.hash_password`.  The pair returned is the response and the stored
user row afterwards. -/
def change_password_route (verify : String → String → Bool) (hashFn : String → String)
    (now : Int) (current_user : User) (old_password new_password : String) :
    RouteResult × User :=
  if verify old_password current_user.password_hash = false then
    (.message false "Current password is incorrect", current_user)
  else
    let u1 := { current_user with password_hash := hashFn new_password }
    let u2 := update_password_changed_at u1 now
    (.message true "Password changed successfully", u2)

/-- The account behind the change-password scenarios. -/
def changePwSample : User :=
  { id := 5, email := "e@x.com", password_hash := "old-pw", role := .user,
    status := "active", failed_login_attempts := 0, lockout_until := none,
    password_changed_at := some 10, last_login_at := none }

/-- Claim C5 fails on the code: a wrong old password makes the non-admin
change-password flow answer with a `success = false` message response — not
with the ValidationFailed error kind — though the stored hash and
password-changed-at are indeed left unchanged. -/
theorem change_password_mismatch_not_validation_error :
    (change_password_route (fun p h => p == h) (fun s => String.append "hash:" s) 1000
        changePwSample "wrong-pw" "new-pw-123").1 =
      .message false "Current password is incorrect" ∧
    ((change_password_route (fun p h => p == h) (fun s => String.append "hash:" s) 1000
        changePwSample "wrong-pw" "new-pw-123").1).is_validation_error = false ∧
    (change_password_route (fun p h => p == h) (fun s => String.append "hash:" s) 1000
        changePwSample "wrong-pw" "new-pw-123").2 = changePwSample := by
  decide

/-- Claim C5 amended: the non-admin change-password flow verifies the current
password first, and on mismatch answers with a current-password-incorrect
failure message (`success = false`, not a ValidationFailed error), leaving the
stored password hash and password-changed-at timestamp unchanged. -/
theorem change_password_mismatch_no_state_change
    (verify : String → String → Bool) (hashFn : String → String) (now : Int)
    (u : User) (old_password new_password : String)
    (hmis : verify old_password u.password_hash = false) :
    change_password_route verify hashFn now u old_password new_password =
      (.message false "Current password is incorrect", u) := by
  simp [change_password_route, hmis]

theorem change_password_mismatch_no_state_change_witness :
    change_password_route (fun p h => p == h) (fun s => String.append "hash:" s) 1000
        changePwSample "wrong-pw" "new-pw-123" =
      (.message false "Current password is incorrect", changePwSample) :=
  change_password_mismatch_no_state_change (fun p h => p == h)
    (fun s => String.append "hash:" s) 1000 changePwSample "wrong-pw" "new-pw-123"
    (by decide)

/-- The status strings `UserService.UserState` enumerates — note `deleted`,
where the data model's `Status` enum has `banned`. -/
def userStateValues : List String := ["active", "suspended", "deactivated", "deleted"]

/-- The status strings `user_crud.status_update` accepts before assigning. -/
def crudStatusValues : List String := ["active", "banned", "suspended", "deactivated"]

/-- Outcome of `UserService.update_user_status`.  `uncaught` records the
`ValueError` that `user_crud.status_update` raises on a status outside its own
list: the service only catches `DatabaseError`, so it escapes. -/
inductive StatusUpdateResult where
  | ok (stored : User)
  | error (kind : ErrKind) (msg : String)
  | uncaught (exn : String)
deriving DecidableEq, Repr

/-- Embedding of `user_crud.status_update`. -/
def status_update (user : User) (status : String) : StatusUpdateResult :=
  if status ∉ crudStatusValues then .uncaught "ValueError"
  else .ok { user with status := status }

/-- The post-permission body of `UserService.update_user_status`: the
service-level status validation followed by the CRUD write. -/
def update_user_status_validated (user : User) (status : String) : StatusUpdateResult :=
  if status ∉ userStateValues then
    .error .validationFailed (String.append "Invalid status: " status)
  else status_update user status

/-- Embedding of `UserService.update_user_status`.  The permission check runs
only when a `requesting_user` is supplied (`if requesting_user and
requesting_user.role != UserRole.admin`). -/
def update_user_status (get_user : Nat → Option User) (user_id : Nat)
    (status : String) (requesting_user : Option User) : StatusUpdateResult :=
  match get_user user_id with
  | none => .error .notFound "User not found"
  | some user =>
    match requesting_user with
    | some ru =>
      if ru.role ≠ UserRole.admin then
        .error .permissionDenied "Not authorized to change user status"
      else update_user_status_validated user status
    | none => update_user_status_validated user status

/-- An admin account. -/
def adminSample : User :=
  { id := 10, email := "root@x.com", password_hash := "pw", role := .admin,
    status := "active", failed_login_attempts := 0, lockout_until := none,
    password_changed_at := none, last_login_at := none }

/-- The user-store of the status-update scenarios: account 7 is
`suspendedSample`. -/
def sampleStore (n : Nat) : Option User :=
  if n == 7 then some suspendedSample else none

/-- Claim C6 fails on the code: `banned` belongs to the data model's closed
status enumeration (the `Status` enum and `user_crud.status_update` both list
it), yet an admin's `update_user_status` request with it is rejected with
`ValidationError`, because the service validates against `UserState`, whose
members are `active`, `suspended`, `deactivated`, `deleted`.  The stray value
`deleted` passes the service check instead and escapes as an uncaught
`ValueError` in the CRUD layer. -/
theorem update_status_rejects_banned :
    "banned" ∈ crudStatusValues ∧
    update_user_status sampleStore 7 "banned" (some adminSample) =
      .error .validationFailed "Invalid status: banned" ∧
    update_user_status sampleStore 7 "deleted" (some adminSample) =
      .uncaught "ValueError" ∧
    update_user_status sampleStore 7 "active" (some adminSample) =
      .ok { suspendedSample with status := "active" } := by
  decide

/-- The `user_profiles` row (`app/models/user_models.py`, class
`UserProfile`).  Its primary key `id` is the owning user's id.  JSON columns
are embedded structurally; pillar weights carry their numeric values as
rationals, which the services never inspect. -/
structure Profile where
  id : Nat
  full_name : Option String
  date_of_birth : Option Int
  gender : Option String
  location : Option String
  timezone : Option String
  primary_pillar_weights : Option (List (String × Rat))
  medications : Option (List (List (String × String)))
  conditions : Option (List String)
  crisis_contact : Option String
  preferred_language : Option String
  privacy_settings : Option (List (String × Bool))
  last_updated_at : Int
deriving DecidableEq, Repr

/-- The `ProfileOut` pydantic schema (`app/schemas/user_schema.py`): the same
fields, none of which carries a default, so under pydantic v2 every one of
them is required at construction. -/
structure ProfileOut where
  id : Nat
  full_name : Option String
  date_of_birth : Option Int
  gender : Option String
  location : Option String
  timezone : Option String
  primary_pillar_weights : Option (List (String × Rat))
  medications : Option (List (List (String × String)))
  conditions : Option (List String)
  crisis_contact : Option String
  preferred_language : Option String
  privacy_settings : Option (List (String × Bool))
  last_updated_at : Int
deriving DecidableEq, Repr

/-- `ProfileOut.model_validate(profile)`: every attribute exists on the ORM
row, so validation succeeds field by field. -/
def profileOut_of_profile (p : Profile) : ProfileOut :=
  { id := p.id, full_name := p.full_name, date_of_birth := p.date_of_birth,
    gender := p.gender, location := p.location, timezone := p.timezone,
    primary_pillar_weights := p.primary_pillar_weights,
    medications := p.medications, conditions := p.conditions,
    crisis_contact := p.crisis_contact, preferred_language := p.preferred_language,
    privacy_settings := p.privacy_settings, last_updated_at := p.last_updated_at }

/-- The keyword arguments of a `ProfileOut(**kwargs)` call: for each schema
field, the outer `none` means the key is absent from `kwargs`.  Keys that are
not schema fields (the source's `bio`) are ignored by pydantic's default
`extra` policy and so do not appear here. -/
structure ProfileOutKwargs where
  id : Option Nat := none
  full_name : Option (Option String) := none
  date_of_birth : Option (Option Int) := none
  gender : Option (Option String) := none
  location : Option (Option String) := none
  timezone : Option (Option String) := none
  primary_pillar_weights : Option (Option (List (String × Rat))) := none
  medications : Option (Option (List (List (String × String)))) := none
  conditions : Option (Option (List String)) := none
  crisis_contact : Option (Option String) := none
  preferred_language : Option (Option String) := none
  privacy_settings : Option (Option (List (String × Bool))) := none
  last_updated_at : Option Int := none
deriving DecidableEq, Repr

/-- The schema fields, in declaration order, that a `ProfileOut(**kwargs)`
call leaves unset. -/
def profileOut_missing_fields (k : ProfileOutKwargs) : List String :=
  (if k.id.isNone then ["id"] else []) ++
  (if k.full_name.isNone then ["full_name"] else []) ++
  (if k.date_of_birth.isNone then ["date_of_birth"] else []) ++
  (if k.gender.isNone then ["gender"] else []) ++
  (if k.location.isNone then ["location"] else []) ++
  (if k.timezone.isNone then ["timezone"] else []) ++
  (if k.primary_pillar_weights.isNone then ["primary_pillar_weights"] else []) ++
  (if k.medications.isNone then ["medications"] else []) ++
  (if k.conditions.isNone then ["conditions"] else []) ++
  (if k.crisis_contact.isNone then ["crisis_contact"] else []) ++
  (if k.preferred_language.isNone then ["preferred_language"] else []) ++
  (if k.privacy_settings.isNone then ["privacy_settings"] else []) ++
  (if k.last_updated_at.isNone then ["last_updated_at"] else [])

/-- Pydantic v2 construction of a `ProfileOut`: since no field of the schema
has a default, any unset field makes the call raise a pydantic
`ValidationError` naming the missing fields. -/
def profileOut_validate (k : ProfileOutKwargs) : Except (List String) ProfileOut :=
  if profileOut_missing_fields k = [] then
    .ok { id := k.id.getD 0, full_name := k.full_name.getD none,
          date_of_birth := k.date_of_birth.getD none, gender := k.gender.getD none,
          location := k.location.getD none, timezone := k.timezone.getD none,
          primary_pillar_weights := k.primary_pillar_weights.getD none,
          medications := k.medications.getD none, conditions := k.conditions.getD none,
          crisis_contact := k.crisis_contact.getD none,
          preferred_language := k.preferred_language.getD none,
          privacy_settings := k.privacy_settings.getD none,
          last_updated_at := k.last_updated_at.getD 0 }
  else .error (profileOut_missing_fields k)

/-- Python truthiness of the optional privacy mapping
(`if hasattr(profile, 'privacy_settings') and profile.privacy_settings`):
`None` and the empty dict are falsy. -/
def truthyDict : Option (List (String × Bool)) → Bool
  | none => false
  | some l => !l.isEmpty

/-- Dictionary lookup on the privacy mapping. -/
def lookupFlag (l : List (String × Bool)) (k : String) : Option Bool :=
  (l.find? (fun kv => kv.1 == k)).map (fun kv => kv.2)

/-- Outcome of `ProfileService._apply_privacy_filter`: the filtered profile,
or the pydantic `ValidationError` escaping the `ProfileOut(**filtered_fields)`
call, with the missing field names. -/
inductive FilterResult where
  | ok (p : ProfileOut)
  | pydantic_error (missing : List String)
deriving DecidableEq, Repr

/-- The `filtered_fields` dict the hidden branch of
`ProfileService._apply_privacy_filter` builds: exactly the keys written in the
source — `id`, `full_name`, `bio`, `location`, `date_of_birth`, `gender`,
`timezone`, `crisis_contact`, `privacy_settings` — of which `bio` is not a
schema field and is dropped, and five schema fields are never set. -/
def filtered_fields (profile : Profile) : ProfileOutKwargs :=
  { id := some profile.id,
    full_name := some none,
    location := some none,
    date_of_birth := some none,
    gender := some none,
    timezone := some none,
    crisis_contact := some none,
    privacy_settings := some (some [("show_profile", false)]) }

/-- The non-owner, non-admin tail of `ProfileService._apply_privacy_filter`. -/
def apply_privacy_filter_nonowner (profile : Profile) : FilterResult :=
  if truthyDict profile.privacy_settings then
    if ((lookupFlag (profile.privacy_settings.getD []) "show_profile").getD true)
        = false then
      match profileOut_validate (filtered_fields profile) with
      | .ok p => .ok p
      | .error missing => .pydantic_error missing
    else .ok (profileOut_of_profile profile)
  else .ok (profileOut_of_profile profile)

/-- Embedding of `ProfileService._apply_privacy_filter`:  the profile owner
(`requesting_user.id == profile.id`) and admins see the row unfiltered;
everyone else goes through the privacy branch. -/
def apply_privacy_filter (profile : Profile) (requesting_user : Option User) :
    FilterResult :=
  match requesting_user with
  | some ru =>
    if ru.id = profile.id ∨ ru.role = UserRole.admin then
      .ok (profileOut_of_profile profile)
    else apply_privacy_filter_nonowner profile
  | none => apply_privacy_filter_nonowner profile

/-- A profile whose owner hid it (`show_profile = false`). -/
def hiddenProfile : Profile :=
  { id := 9, full_name := some "Jane Roe", date_of_birth := some 631152000,
    gender := some "female", location := some "Pune", timezone := some "UTC",
    primary_pillar_weights := some [("health", 1)], medications := some [],
    conditions := some ["anxiety"], crisis_contact := some "911",
    preferred_language := some "en",
    privacy_settings := some [("show_profile", false)], last_updated_at := 50 }

/-- A non-owner, non-admin viewer of `hiddenProfile`. -/
def strangerSample : User :=
  { id := 8, email := "v@x.com", password_hash := "pw", role := .user,
    status := "active", failed_login_attempts := 0, lockout_until := none,
    password_changed_at := none, last_login_at := none }

/-- The owner of `hiddenProfile`. -/
def ownerSample : User :=
  { id := 9, email := "j@x.com", password_hash := "pw", role := .user,
    status := "active", failed_login_attempts := 0, lockout_until := none,
    password_changed_at := none, last_login_at := none }

/-- Claim C7 fails on the code: for a non-owner, non-admin viewer of a hidden
profile the code never returns the minimal redacted shape — the
`ProfileOut(**filtered_fields)` call leaves the five defaultless fields
`primary_pillar_weights`, `medications`, `conditions`, `preferred_language`
and `last_updated_at` unset, so pydantic raises a `ValidationError` that
escapes `get_profile`.  The owner and admins do receive the row unfiltered. -/
theorem privacy_filter_hidden_branch_raises :
    apply_privacy_filter hiddenProfile (some strangerSample) =
      .pydantic_error ["primary_pillar_weights", "medications", "conditions",
        "preferred_language", "last_updated_at"] ∧
    apply_privacy_filter hiddenProfile (some ownerSample) =
      .ok (profileOut_of_profile hiddenProfile) ∧
    apply_privacy_filter hiddenProfile (some adminSample) =
      .ok (profileOut_of_profile hiddenProfile) := by
  decide

/-- A runtime Python value arriving in the privacy mapping: a genuine `bool`,
or anything else (its type name recorded), as `isinstance(value, bool)`
distinguishes them. -/
inductive PyVal where
  | bool (b : Bool)
  | other (tag : String)
deriving DecidableEq, Repr

/-- `isinstance(value, bool)`. -/
def PyVal.is_bool : PyVal → Bool
  | .bool _ => true
  | .other _ => false

/-- The `allowed_settings` set in `ProfileService._validate_privacy_settings`. -/
def allowed_privacy_settings : List String :=
  ["show_profile", "show_email", "show_phone", "show_location", "show_birthday"]

/-- Embedding of `ProfileService._validate_privacy_settings`: scan the entries
in order and return the first failure message, if any. -/
def validate_privacy_settings : List (String × PyVal) → Option String
  | [] => none
  | (k, v) :: rest =>
    if k ∉ allowed_privacy_settings then
      some (String.append "Invalid privacy setting: " k)
    else if v.is_bool = false then
      some (String.append (String.append "Privacy setting " k) " must be boolean")
    else validate_privacy_settings rest

/-- The mapping actually stored after validation passed: every value is a
`bool` by then, so the coercion loses nothing. -/
def coerce_bools (ps : List (String × PyVal)) : List (String × Bool) :=
  ps.filterMap (fun kv =>
    match kv.2 with
    | .bool b => some (kv.1, b)
    | .other _ => none)

/-- Embedding of `ProfileService.update_profile_privacy` together with
`profile_crud.update_profile_privacy`.  Returned are the raised error, if any,
and the stored profile row afterwards: the CRUD write replaces the whole
mapping and runs only after permission check, lookup and validation all
passed, so any failing request stores nothing. -/
def update_profile_privacy (profileOpt : Option Profile) (owner_id : Nat)
    (ps : List (String × PyVal)) (requesting_user : Option User) :
    Option (ErrKind × String) × Option Profile :=
  let permFail : Bool :=
    match requesting_user with
    | some ru => decide (ru.id ≠ owner_id) && decide (ru.role ≠ UserRole.admin)
    | none => false
  if permFail then
    (some (.permissionDenied, "Not authorized to update privacy settings"), profileOpt)
  else
    match profileOpt with
    | none => (some (.notFound, "Profile not found"), none)
    | some profile =>
      match validate_privacy_settings ps with
      | some msg => (some (.validationFailed, msg), some profile)
      | none => (none, some { profile with privacy_settings := some (coerce_bools ps) })

/-- A privacy mapping containing a bad entry is always rejected by the
validator, whichever entry is scanned first. -/
theorem validate_privacy_settings_rejects_bad :
    ∀ (ps : List (String × PyVal)),
      (∃ kv ∈ ps, kv.1 ∉ allowed_privacy_settings ∨ kv.2.is_bool = false) →
      ∃ msg, validate_privacy_settings ps = some msg := by
  intro ps
  induction ps with
  | nil =>
    rintro ⟨kv, hmem, -⟩
    cases hmem
  | cons hd tl ih =>
    obtain ⟨k, v⟩ := hd
    rintro ⟨kv, hmem, hbad⟩
    by_cases hk : k ∈ allowed_privacy_settings
    · by_cases hv : v.is_bool = false
      · exact ⟨String.append (String.append "Privacy setting " k) " must be boolean",
          by simp [validate_privacy_settings, hk, hv]⟩
      · rcases List.mem_cons.mp hmem with heq | htl
        · subst heq
          rcases hbad with h | h
          · exact absurd hk h
          · exact absurd h hv
        · obtain ⟨msg, hmsg⟩ := ih ⟨kv, htl, hbad⟩
          refine ⟨msg, ?_⟩
          simp only [validate_privacy_settings, hk, hv]
          simpa [hk, hv] using hmsg
    · exact ⟨String.append "Invalid privacy setting: " k,
        by simp [validate_privacy_settings, hk]⟩

/-- Claim C8: a privacy-settings update whose mapping contains any unknown key
or non-boolean value fails with ValidationFailed and leaves the stored
privacy mapping — indeed the whole profile row — unchanged, all-or-nothing. -/
theorem privacy_update_all_or_nothing
    (profile : Profile) (owner_id : Nat) (ps : List (String × PyVal))
    (requesting_user : Option User)
    (hperm : ∀ ru, requesting_user = some ru →
      ru.id = owner_id ∨ ru.role = UserRole.admin)
    (hbad : ∃ kv ∈ ps, kv.1 ∉ allowed_privacy_settings ∨ kv.2.is_bool = false) :
    ∃ msg, update_profile_privacy (some profile) owner_id ps requesting_user =
      (some (.validationFailed, msg), some profile) := by
  obtain ⟨msg, hmsg⟩ := validate_privacy_settings_rejects_bad ps hbad
  refine ⟨msg, ?_⟩
  cases requesting_user with
  | none => simp [update_profile_privacy, hmsg]
  | some ru =>
    rcases hperm ru rfl with h | h <;> simp [update_profile_privacy, hmsg, h]

theorem privacy_update_all_or_nothing_witness :
    ∃ msg, update_profile_privacy (some hiddenProfile) 9
        [("show_unknown", PyVal.bool true)] (some ownerSample) =
      (some (.validationFailed, msg), some hiddenProfile) :=
  privacy_update_all_or_nothing hiddenProfile 9 [("show_unknown", PyVal.bool true)]
    (some ownerSample)
    (by intro ru h; cases h; left; rfl)
    ⟨("show_unknown", PyVal.bool true), by decide, by decide⟩

end Harmony
